import Mathlib

/-
Verification of the serial-bridge core of the BIOE123_V2_Centrifuge
repository (src/serial_controller.py) against its natural-language
specification.  The Python module is shallowly embedded below: the
enum SystemState, the dataclass ArduinoStatus, the line parser
(_parse_line / _parse_status_json / _check_state_change), the
connection management (disconnect, _handle_disconnect, _send,
is_connected), the callback dispatcher (_fire_callback) and the two
background loops (reader, watchdog) are translated into executable
Lean definitions, and the claims of the specification are settled as
theorems about those definitions.
-/

set_option maxRecDepth 4096

/-- Enumeration SystemState of serial_controller.py (lines 36-42).
Each member's value is its own name as a string. -/
inductive SystemState where
  | IDLE
  | RAMPING_UP
  | RUNNING
  | RAMPING_DOWN
  | ERROR
  | DISCONNECTED
deriving DecidableEq, Repr

/-- Models the Python enum value lookup SystemState(s): returns the
member whose string value is s, or none when the lookup raises
ValueError. -/
def SystemState.fromString (s : String) : Option SystemState :=
  if s = "IDLE" then some .IDLE
  else if s = "RAMPING_UP" then some .RAMPING_UP
  else if s = "RUNNING" then some .RUNNING
  else if s = "RAMPING_DOWN" then some .RAMPING_DOWN
  else if s = "ERROR" then some .ERROR
  else if s = "DISCONNECTED" then some .DISCONNECTED
  else none

/-- Dataclass ArduinoStatus of serial_controller.py (lines 45-57):
the status record received from the Arduino.  The time-valued field
last_updated is modelled as a Nat timestamp supplied by the caller of
the mutating operations. -/
structure ArduinoStatus where
  state : SystemState := .DISCONNECTED
  current_rpm : Int := 0
  target_rpm : Int := 0
  pwm : Int := 0
  lid_closed : Bool := false
  level : Bool := false
  running : Bool := false
  remaining_ms : Int := 0
  error_reason : String := ""
  last_updated : Nat := 0
deriving DecidableEq, Repr

/-- Property ArduinoStatus.remaining_sec (lines 59-61):
remaining_ms // 1000 with Python floor division. -/
def ArduinoStatus.remaining_sec (s : ArduinoStatus) : Int :=
  Int.fdiv s.remaining_ms 1000

/-- Property ArduinoStatus.is_connected (lines 63-65). -/
def ArduinoStatus.is_connected (s : ArduinoStatus) : Bool :=
  s.state != SystemState.DISCONNECTED

/- ==================== JSON VALUE MODEL ====================
Model of the Python json module as used by _parse_status_json, with
the default (strict) decoder settings: objects, arrays, strings with
the standard escape sequences (including surrogate pairs) and with
raw control characters below 0x20 rejected, integer and floating
point numeric literals with the JSON number grammar (leading zeros
rejected), the constants true, false, null, and the Python json
extensions NaN, Infinity and -Infinity.  A floating point literal is
kept as its exact decimal components; the conversions int() and
bool() applied to it later round it to an IEEE-754 binary64 value
exactly as Python's float does. -/

/-- A Python float as json.loads produces it: the exact decimal value
of a finite literal (sign, mantissa digits, power-of-ten exponent),
or an infinity or NaN from the corresponding literals (an overflowing
finite literal is classified at conversion time). -/
inductive PyFloat where
  | finite (neg : Bool) (mant : Nat) (exp10 : Int)
  | inf (neg : Bool)
  | nan
deriving Repr

/-- A decoded JSON value. -/
inductive JsonValue where
  | str (s : String)
  | int (n : Int)
  | float (f : PyFloat)
  | bool (b : Bool)
  | null
  | arr (xs : List JsonValue)
  | obj (kvs : List (String × JsonValue))
deriving Repr

/-- Drops leading JSON whitespace characters. -/
def skipWs : List Char → List Char
  | [] => []
  | c :: cs =>
    if c = ' ' ∨ c = '\t' ∨ c = '\n' ∨ c = '\r' then skipWs cs else c :: cs

/-- Value of one hexadecimal digit. -/
def hexDigitVal (c : Char) : Option Nat :=
  if '0' ≤ c ∧ c ≤ '9' then some (c.toNat - 48)
  else if 'a' ≤ c ∧ c ≤ 'f' then some (c.toNat - 87)
  else if 'A' ≤ c ∧ c ≤ 'F' then some (c.toNat - 55)
  else none

/-- Reads exactly four hexadecimal digits of a \uXXXX escape. -/
def parse4Hex : List Char → Option (Nat × List Char)
  | c1 :: c2 :: c3 :: c4 :: rest =>
    match hexDigitVal c1, hexDigitVal c2, hexDigitVal c3, hexDigitVal c4 with
    | some h1, some h2, some h3, some h4 =>
      some (((h1 * 16 + h2) * 16 + h3) * 16 + h4, rest)
    | _, _, _, _ => none
  | _ => none

/-- Reads the body of a JSON string after the opening quote, up to
the closing quote, as Python's json module does in its default strict
mode: the eight short escapes and \uXXXX are decoded (a high
surrogate escape followed by a low surrogate escape combines into one
character), a raw control character below 0x20 or an unknown escape
is rejected.  A lone surrogate escape, which Python keeps as an
unpaired surrogate code unit inside the str, is represented here by
U+FFFD: through this program the two are indistinguishable, since
such a string matches no enum value, no integer literal and no
protocol key, and is nonempty for bool().  The fuel argument bounds
the loop; callers supply one unit per input character plus one, which
is sufficient because every step consumes at least one character. -/
def parseStringChars : Nat → List Char → Option (List Char × List Char)
  | 0, _ => none
  | _, [] => none
  | fuel + 1, c :: cs =>
    if c = '"' then some ([], cs)
    else if c = '\\' then
      match cs with
      | [] => none
      | e :: cs' =>
        if e = '"' then (parseStringChars fuel cs').map (fun p => ('"' :: p.1, p.2))
        else if e = '\\' then (parseStringChars fuel cs').map (fun p => ('\\' :: p.1, p.2))
        else if e = '/' then (parseStringChars fuel cs').map (fun p => ('/' :: p.1, p.2))
        else if e = 'b' then (parseStringChars fuel cs').map (fun p => ('\x08' :: p.1, p.2))
        else if e = 'f' then (parseStringChars fuel cs').map (fun p => ('\x0c' :: p.1, p.2))
        else if e = 'n' then (parseStringChars fuel cs').map (fun p => ('\n' :: p.1, p.2))
        else if e = 'r' then (parseStringChars fuel cs').map (fun p => ('\x0d' :: p.1, p.2))
        else if e = 't' then (parseStringChars fuel cs').map (fun p => ('\t' :: p.1, p.2))
        else if e = 'u' then
          match parse4Hex cs' with
          | none => none
          | some (n, rest1) =>
            if 0xD800 ≤ n ∧ n ≤ 0xDBFF then
              match rest1 with
              | '\\' :: 'u' :: rest2 =>
                match parse4Hex rest2 with
                | some (n2, rest3) =>
                  if 0xDC00 ≤ n2 ∧ n2 ≤ 0xDFFF then
                    (parseStringChars fuel rest3).map (fun p =>
                      (Char.ofNat (0x10000 + (n - 0xD800) * 0x400 + (n2 - 0xDC00)) :: p.1, p.2))
                  else
                    (parseStringChars fuel rest1).map (fun p => ('\uFFFD' :: p.1, p.2))
                | none => (parseStringChars fuel rest1).map (fun p => ('\uFFFD' :: p.1, p.2))
              | _ => (parseStringChars fuel rest1).map (fun p => ('\uFFFD' :: p.1, p.2))
            else if 0xDC00 ≤ n ∧ n ≤ 0xDFFF then
              (parseStringChars fuel rest1).map (fun p => ('\uFFFD' :: p.1, p.2))
            else
              (parseStringChars fuel rest1).map (fun p => (Char.ofNat n :: p.1, p.2))
        else none
    else if c.toNat < 32 then none
    else (parseStringChars fuel cs).map (fun p => (c :: p.1, p.2))

/-- Splits a leading run of decimal digits from the input. -/
def parseDigits : List Char → List Char × List Char
  | [] => ([], [])
  | c :: cs =>
    if c.isDigit then
      let p := parseDigits cs
      (c :: p.1, p.2)
    else ([], c :: cs)

/-- Numeric value of a digit run. -/
def digitsVal (ds : List Char) : Nat :=
  ds.foldl (fun a c => a * 10 + (c.toNat - 48)) 0

/-- Reads the integer part of a JSON number: a single 0, or a
nonzero digit followed by digits.  A 0 followed by more digits stops
after the 0, exactly as Python's tokenizer does; the stray digits
then make the enclosing construct fail. -/
def parseIntPart : List Char → Option (List Char × List Char)
  | [] => none
  | c :: cs =>
    if c = '0' then some (['0'], cs)
    else if c.isDigit then
      let p := parseDigits cs
      some (c :: p.1, p.2)
    else none

/-- Reads a JSON number token after an optional already-consumed
minus sign, with the JSON grammar: integer part, optional fraction
(a dot with at least one digit, otherwise the dot is left
unconsumed, as Python's tokenizer leaves it), optional exponent
(likewise left unconsumed when malformed).  A token without fraction
and exponent decodes to an int; otherwise to a float given by its
exact decimal components. -/
def parseNumberCore (neg : Bool) (cs : List Char) : Option (JsonValue × List Char) :=
  match parseIntPart cs with
  | none => none
  | some (ids, rest1) =>
    let p2 : List Char × List Char :=
      match rest1 with
      | '.' :: rest2 =>
        match parseDigits rest2 with
        | ([], _) => ([], rest1)
        | (ds, rest3) => (ds, rest3)
      | _ => ([], rest1)
    let p3 : Option (Bool × List Char) × List Char :=
      match p2.2 with
      | c :: rest3 =>
        if c = 'e' ∨ c = 'E' then
          match rest3 with
          | s :: rest4 =>
            if s = '+' ∨ s = '-' then
              match parseDigits rest4 with
              | ([], _) => (none, p2.2)
              | (ds, rest5) => (some (s = '-', ds), rest5)
            else
              match parseDigits rest3 with
              | ([], _) => (none, p2.2)
              | (ds, rest5) => (some (false, ds), rest5)
          | [] => (none, p2.2)
        else (none, p2.2)
      | [] => (none, p2.2)
    match p2.1, p3.1 with
    | [], none =>
      some (.int (if neg then -(digitsVal ids : Int) else (digitsVal ids : Int)), p3.2)
    | fracDs, expPart =>
      let mant := digitsVal (ids ++ fracDs)
      let e10 : Int :=
        (match expPart with
         | some (en, eds) => if en then -(digitsVal eds : Int) else (digitsVal eds : Int)
         | none => 0) - (fracDs.length : Int)
      some (.float (.finite neg mant e10), p3.2)

/-- Consumes an exact sequence of expected characters. -/
def stripToken : List Char → List Char → Option (List Char)
  | [], cs => some cs
  | _ :: _, [] => none
  | t :: ts, c :: cs => if c = t then stripToken ts cs else none

mutual

/-- Reads one JSON value.  The fuel argument bounds recursion depth
and iteration count; json_loads supplies one unit of fuel per input
character plus one, which is sufficient because every recursive call
is preceded by the consumption of at least one character. -/
def parseValue : Nat → List Char → Option (JsonValue × List Char)
  | 0, _ => none
  | fuel + 1, cs =>
    match skipWs cs with
    | [] => none
    | c :: rest =>
      if c = '"' then
        match parseStringChars (rest.length + 1) rest with
        | some (chars, rest') => some (.str (String.mk chars), rest')
        | none => none
      else if c = '\x7b' then
        match skipWs rest with
        | '\x7d' :: rest' => some (.obj [], rest')
        | other =>
          match parseObjMembers fuel other with
          | some (kvs, rest') => some (.obj kvs, rest')
          | none => none
      else if c = '[' then
        match skipWs rest with
        | ']' :: rest' => some (.arr [], rest')
        | other =>
          match parseArrElems fuel other with
          | some (xs, rest') => some (.arr xs, rest')
          | none => none
      else if c = 't' then
        (stripToken ['r', 'u', 'e'] rest).map (fun r => (.bool true, r))
      else if c = 'f' then
        (stripToken ['a', 'l', 's', 'e'] rest).map (fun r => (.bool false, r))
      else if c = 'n' then
        (stripToken ['u', 'l', 'l'] rest).map (fun r => (.null, r))
      else if c = 'N' then
        (stripToken ['a', 'N'] rest).map (fun r => (.float .nan, r))
      else if c = 'I' then
        (stripToken ['n', 'f', 'i', 'n', 'i', 't', 'y'] rest).map
          (fun r => (.float (.inf false), r))
      else if c = '-' then
        match rest with
        | 'I' :: rest2 =>
          (stripToken ['n', 'f', 'i', 'n', 'i', 't', 'y'] rest2).map
            (fun r => (.float (.inf true), r))
        | _ => parseNumberCore true rest
      else
        parseNumberCore false (c :: rest)

/-- Reads the members of a JSON object after the opening brace, up to
and including the closing brace. -/
def parseObjMembers : Nat → List Char → Option (List (String × JsonValue) × List Char)
  | 0, _ => none
  | fuel + 1, cs =>
    match skipWs cs with
    | '"' :: rest =>
      match parseStringChars (rest.length + 1) rest with
      | none => none
      | some (key, rest1) =>
        match skipWs rest1 with
        | ':' :: rest2 =>
          match parseValue fuel rest2 with
          | none => none
          | some (v, rest3) =>
            match skipWs rest3 with
            | ',' :: rest4 =>
              match parseObjMembers fuel rest4 with
              | some (kvs, rest5) => some ((String.mk key, v) :: kvs, rest5)
              | none => none
            | '\x7d' :: rest4 => some ([(String.mk key, v)], rest4)
            | _ => none
        | _ => none
    | _ => none

/-- Reads the elements of a JSON array after the opening bracket, up
to and including the closing bracket. -/
def parseArrElems : Nat → List Char → Option (List JsonValue × List Char)
  | 0, _ => none
  | fuel + 1, cs =>
    match parseValue fuel cs with
    | none => none
    | some (v, rest) =>
      match skipWs rest with
      | ',' :: rest2 =>
        match parseArrElems fuel rest2 with
        | some (xs, rest3) => some (v :: xs, rest3)
        | none => none
      | ']' :: rest2 => some ([v], rest2)
      | _ => none

end

/-- Models json.loads applied to one received line: the whole input
must be a single JSON document, possibly surrounded by whitespace;
anything else is a decode failure (None here, JSONDecodeError in
Python). -/
def json_loads (line : String) : Option JsonValue :=
  match parseValue (line.data.length + 1) line.data with
  | some (v, rest) =>
    match skipWs rest with
    | [] => some v
    | _ => none
  | none => none

/-- Models the Python dict lookup data[k] for a dict built by
json.loads: with duplicate keys the last occurrence wins; returns
none when the key is absent. -/
def dictFind (kvs : List (String × JsonValue)) (k : String) : Option JsonValue :=
  (kvs.reverse.find? (fun p => p.1 == k)).map Prod.snd

/-- Models data.get(k, dflt). -/
def dictGet (kvs : List (String × JsonValue)) (k : String) (dflt : JsonValue) : JsonValue :=
  (dictFind kvs k).getD dflt

/- ==================== PYTHON CONVERSIONS ==================== -/

/- IEEE-754 binary64 semantics for the float values the decoder
produces.  Python stores a finite JSON number with a fraction or
exponent as the double nearest to its exact decimal value
(round-to-nearest, ties-to-even, overflowing to infinity and
underflowing to zero); int() then truncates that double toward zero
and bool() compares it against 0.0.  The rounding below computes the
double exactly with integer arithmetic. -/

/-- The double a finite decimal rounds to: zero, a value S * 2^E with
S nonzero, or an overflow to infinity. -/
inductive DoubleVal where
  | zero
  | finite (S : Nat) (E : Int)
  | overflow
deriving DecidableEq, Repr

/-- Nearest integer to a / b (b positive), ties to the even
neighbour. -/
def roundHalfEven (a b : Nat) : Nat :=
  let n := a / b
  let r := a % b
  if 2 * r < b then n
  else if b < 2 * r then n + 1
  else if n % 2 = 0 then n else n + 1

/-- Whether a / b is at least 2^e, for positive a and b. -/
def ratGePow2 (a b : Nat) (e : Int) : Bool :=
  if 0 ≤ e then b * 2 ^ e.toNat ≤ a else b ≤ a * 2 ^ (-e).toNat

/-- Floor of the base-two logarithm of a / b, for positive a and b:
the first guess from Nat.log2 is off by at most one and is fixed by a
single comparison. -/
def ratLog2 (a b : Nat) : Int :=
  let g : Int := (Nat.log2 a : Int) - (Nat.log2 b : Int)
  if ratGePow2 a b g then g else g - 1

/-- Rounds the exact decimal mant * 10^exp10 to the nearest binary64
double: find the binary exponent, scale to a 53-bit significand with
the exponent clamped at the subnormal threshold, round ties-to-even,
renormalize a carry, and detect overflow past the largest finite
exponent. -/
def doubleRound (mant : Nat) (exp10 : Int) : DoubleVal :=
  if mant = 0 then .zero
  else
    let a : Nat := if 0 ≤ exp10 then mant * 10 ^ exp10.toNat else mant
    let b : Nat := if 0 ≤ exp10 then 1 else 10 ^ (-exp10).toNat
    let e : Int := ratLog2 a b
    let eEff : Int := max e (-1022)
    let shift : Int := 52 - eEff
    let a' : Nat := if 0 ≤ shift then a * 2 ^ shift.toNat else a
    let b' : Nat := if 0 ≤ shift then b else b * 2 ^ (-shift).toNat
    let S : Nat := roundHalfEven a' b'
    if S = 0 then .zero
    else
      let p : Nat × Int := if S = 2 ^ 53 then (2 ^ 52, eEff + 1) else (S, eEff)
      if 1023 < p.2 then .overflow else .finite p.1 (p.2 - 52)

/-- Truncation toward zero of the nonnegative double S * 2^E. -/
def doubleTrunc (S : Nat) (E : Int) : Nat :=
  if 0 ≤ E then S * 2 ^ E.toNat else S / 2 ^ (-E).toNat

/-- Reads digits with single underscores between them, per the
grammar Python's int() accepts for str arguments; stops before an
underscore not followed by a digit, whose leftover rejects the whole
literal through the trailing-content check of pyIntOfString. -/
def udigits : List Char → Nat → Nat × List Char
  | [], acc => (acc, [])
  | [c], acc =>
    if c.isDigit then (acc * 10 + (c.toNat - 48), []) else (acc, [c])
  | c :: d :: cs, acc =>
    if c.isDigit then udigits (d :: cs) (acc * 10 + (c.toNat - 48))
    else if c = '_' ∧ d.isDigit then udigits cs (acc * 10 + (d.toNat - 48))
    else (acc, c :: d :: cs)

/-- Models the Python conversion int(s) for a str argument: optional
surrounding whitespace, an optional sign, then decimal digits with
single underscores allowed between digits; anything else raises
ValueError (none here). -/
def pyIntOfString (s : String) : Option Int :=
  let cs := skipWs s.data
  let p : Bool × List Char :=
    match cs with
    | '-' :: r => (true, r)
    | '+' :: r => (false, r)
    | _ => (false, cs)
  match p.2 with
  | c :: rest =>
    if c.isDigit then
      let q := udigits rest (c.toNat - 48)
      if skipWs q.2 = [] then
        some (if p.1 then -(q.1 : Int) else (q.1 : Int))
      else none
    else none
  | [] => none

/-- Models the Python conversion int(x) on a value decoded from JSON:
ints pass through, booleans become 0 or 1, numeric strings are
parsed, a finite float truncates toward zero; null, arrays and
objects raise TypeError, non-numeric strings and NaN raise ValueError
and an infinite float (including a finite literal that overflowed)
raises OverflowError — all three escape as none here. -/
def pyInt : JsonValue → Option Int
  | .int n => some n
  | .bool b => some (if b then 1 else 0)
  | .str s => pyIntOfString s
  | .float (.finite neg mant e10) =>
    match doubleRound mant e10 with
    | .zero => some 0
    | .overflow => none
    | .finite S E =>
      some (if neg then -(doubleTrunc S E : Int) else (doubleTrunc S E : Int))
  | .float (.inf _) => none
  | .float .nan => none
  | .null => none
  | .arr _ => none
  | .obj _ => none

/-- Models the Python conversion bool(x) on a value decoded from
JSON; it is total and never raises.  A float is falsy exactly when
its double value is 0.0 (so a literal that underflows to zero is
falsy); NaN and the infinities are truthy. -/
def pyBool : JsonValue → Bool
  | .int n => n != 0
  | .bool b => b
  | .str s => s != ""
  | .float (.finite _ mant e10) =>
    match doubleRound mant e10 with
    | .zero => false
    | _ => true
  | .float (.inf _) => true
  | .float .nan => true
  | .null => false
  | .arr xs => !xs.isEmpty
  | .obj kvs => !kvs.isEmpty

/-- Models the guarded enum decode of _parse_status_json (lines
341-344): SystemState(value) inside try/except ValueError, defaulting
to IDLE when the lookup fails (unrecognized string, or any non-string
value). -/
def stateFromJson : JsonValue → SystemState
  | .str s => (SystemState.fromString s).getD .IDLE
  | _ => .IDLE

/- ==================== EVENTS AND CONTROLLER STATE ==================== -/

/-- One observer callback delivery attempted by the controller,
carrying its payload: on_status_update(snapshot),
on_state_change(old, new), on_error(reason), on_complete(). -/
inductive Event where
  | statusUpdated (snapshot : ArduinoStatus)
  | stateChanged (old new : SystemState)
  | error (reason : String)
  | complete
deriving DecidableEq, Repr

/-- Returns the payload of a state-changed event, none for the other
event kinds. -/
def stateChangedOf : Event → Option (SystemState × SystemState)
  | .stateChanged o n => some (o, n)
  | _ => none

/-- The mutable state of one SerialController instance:
_status (the shared record), _previous_state (the value tracked by
_check_state_change), whether _serial is not None (serialPresent),
whether _serial.is_open holds (serialOpen), and whether _stop_event
is set. -/
structure ControllerState where
  status : ArduinoStatus := {}
  previous_state : SystemState := .DISCONNECTED
  serialPresent : Bool := false
  serialOpen : Bool := false
  stopEvent : Bool := false
deriving DecidableEq, Repr

/-- Method is_connected (lines 170-171): the serial object exists and
its port is open. -/
def is_connected (c : ControllerState) : Bool :=
  c.serialPresent && c.serialOpen

/-- Method get_status (lines 221-237): takes the status lock and
returns a field-by-field copy of the record; with value semantics in
the model the copy is the record itself. -/
def get_status (c : ControllerState) : ArduinoStatus :=
  c.status

/-- Models str.startswith on the received line. -/
def strStartsWith (s p : String) : Bool :=
  p.data.isPrefixOf s.data

/-- Models the Python slice line[n:]. -/
def strDrop (s : String) (n : Nat) : String :=
  String.mk (s.data.drop n)

/-- Result of the write sequence of _parse_status_json inside the
status lock: the record after the writes that were performed, how
many of the nine assignment statements completed, and whether all of
them did (ok = false means an int() conversion raised and the
exception escaped the critical section, leaving the earlier writes in
place). -/
structure JsonApplyResult where
  status : ArduinoStatus
  writes : Nat
  ok : Bool
deriving DecidableEq, Repr

/-- The body of the with-block of _parse_status_json (lines 340-353):
nine sequential field assignments in source order.  The state
assignment is guarded by its own try/except and never fails; each of
the four int() conversions can raise, aborting the remaining
assignments; the three bool() conversions are total. -/
def applyStatusJson (s : ArduinoStatus) (kvs : List (String × JsonValue)) (now : Nat) :
    JsonApplyResult :=
  let s1 := { s with state := stateFromJson (dictGet kvs "state" (.str "IDLE")) }
  match pyInt (dictGet kvs "currentRPM" (.int 0)) with
  | none => ⟨s1, 1, false⟩
  | some cur =>
    let s2 := { s1 with current_rpm := cur }
    match pyInt (dictGet kvs "targetRPM" (.int 0)) with
    | none => ⟨s2, 2, false⟩
    | some tgt =>
      let s3 := { s2 with target_rpm := tgt }
      match pyInt (dictGet kvs "pwm" (.int 0)) with
      | none => ⟨s3, 3, false⟩
      | some pw =>
        let s4 := { s3 with pwm := pw }
        let s5 := { s4 with lid_closed := pyBool (dictGet kvs "lidClosed" (.bool false)) }
        let s6 := { s5 with level := pyBool (dictGet kvs "level" (.bool false)) }
        let s7 := { s6 with running := pyBool (dictGet kvs "running" (.bool false)) }
        match pyInt (dictGet kvs "remainingMs" (.int 0)) with
        | none => ⟨s7, 7, false⟩
        | some rem =>
          ⟨{ s7 with remaining_ms := rem, last_updated := now }, 9, true⟩

/-- Method _check_state_change (lines 361-369): reads the current
state under the lock, and if it differs from _previous_state fires
on_state_change(previous, current) and records the new value. -/
def check_state_change (c : ControllerState) : ControllerState × List Event :=
  let current := c.status.state
  if current ≠ c.previous_state then
    ({ c with previous_state := current }, [Event.stateChanged c.previous_state current])
  else (c, [])

/-- Method _parse_status_json (lines 335-359).  Result: the new
controller state, the callback deliveries attempted in order, and
whether an exception escaped to the reader loop.  A decode failure is
caught inside the method (status untouched, no events, no escape); a
successful decode of a non-dict value would make data.get raise
outside the except clause; an int() conversion failure escapes after
the earlier field writes, skipping both callbacks. -/
def parse_status_json (c : ControllerState) (line : String) (now : Nat) :
    ControllerState × List Event × Bool :=
  match json_loads line with
  | none => (c, [], false)
  | some (.obj kvs) =>
    let r := applyStatusJson c.status kvs now
    if r.ok then
      let c1 := { c with status := r.status }
      let p := check_state_change c1
      (p.1, Event.statusUpdated (get_status c1) :: p.2, false)
    else
      ({ c with status := r.status }, [], true)
  | some _ => (c, [], true)

/-- Method _parse_line (lines 290-333): ordered first-match dispatch
on the line prefix.  Result as for parse_status_json. -/
def parse_line (c : ControllerState) (line : String) (now : Nat) :
    ControllerState × List Event × Bool :=
  if strStartsWith line "\x7b" then
    parse_status_json c line now
  else if strStartsWith line "ERROR:" then
    let reason := strDrop line 6
    let c1 := { c with status := { c.status with state := .ERROR, error_reason := reason } }
    let p := check_state_change c1
    (p.1, Event.error reason :: p.2, false)
  else if strStartsWith line "STATE:" then
    match SystemState.fromString (strDrop line 6) with
    | some new_state =>
      let c1 := { c with status := { c.status with state := new_state } }
      let p := check_state_change c1
      (p.1, p.2, false)
    | none => (c, [], false)
  else if strStartsWith line "STATUS:COMPLETE" then
    (c, [Event.complete], false)
  else if strStartsWith line "WARNING:" then (c, [], false)
  else if line = "PONG" then (c, [], false)
  else if strStartsWith line "ACK:" then (c, [], false)
  else if strStartsWith line "Centrifuge Control" then (c, [], false)
  else if line = "System Ready" then (c, [], false)
  else (c, [], false)

/-- Sequential processing of a list of timestamped lines by the
reader loop; an exception escaping one line is caught by the loop's
outer except clause, so processing continues with the next line.
Returns the final controller state and the concatenated deliveries. -/
def processLines (c : ControllerState) : List (String × Nat) → ControllerState × List Event
  | [] => (c, [])
  | (l, t) :: rest =>
    let r := parse_line c l t
    let r' := processLines r.1 rest
    (r'.1, r.2.1 ++ r'.2)

/- ==================== CONNECTION MANAGEMENT ==================== -/

/-- Method disconnect (lines 153-168): sets the stop event, joins
both threads with a bounded timeout, closes the link only when it is
present and open, and marks the status record Disconnected.  The
second component counts how many close operations were performed. -/
def disconnect (c : ControllerState) : ControllerState × Nat :=
  let c1 := { c with stopEvent := true }
  let p : ControllerState × Nat :=
    if c1.serialPresent && c1.serialOpen then ({ c1 with serialOpen := false }, 1)
    else (c1, 0)
  ({ p.1 with status := { p.1.status with state := .DISCONNECTED } }, p.2)

/-- Method _handle_disconnect (lines 386-396): marks the record
Disconnected, closes the link when the serial object exists (errors
from close are swallowed), and fires on_error with reason
SERIAL_DISCONNECTED.  It does not set the stop event. -/
def handle_disconnect (c : ControllerState) : ControllerState × List Event :=
  let c1 := { c with status := { c.status with state := .DISCONNECTED } }
  let c2 := if c1.serialPresent then { c1 with serialOpen := false } else c1
  (c2, [Event.error "SERIAL_DISCONNECTED"])

/-- The reader loop's handling of a serial read failure (lines
267-270): _handle_disconnect runs once, then the loop breaks.  The
final component records that the reader task exits. -/
def reader_on_io_error (c : ControllerState) : ControllerState × List Event × Bool :=
  let p := handle_disconnect c
  (p.1, p.2, true)

/-- One watchdog iteration after its sleep (lines 283-286): returns
whether a PING is sent this iteration. -/
def watchdog_iteration (c : ControllerState) : Bool :=
  is_connected c && !c.stopEvent

/-- Whether the watchdog loop's while condition lets the loop exit:
the loop `while not stop_event` terminates exactly when the stop
event is set. -/
def watchdog_exits (c : ControllerState) : Bool :=
  c.stopEvent

/-- Method _send (lines 372-384): returns failure without touching
the link when not connected; otherwise writes the command under the
write lock, and on a write failure runs _handle_disconnect and
returns failure.  Result: new state, success flag, the commands
actually written, and the deliveries fired. -/
def send (c : ControllerState) (command : String) (writeFails : Bool) :
    ControllerState × Bool × List String × List Event :=
  if !is_connected c then (c, false, [], [])
  else if writeFails then
    let p := handle_disconnect c
    (p.1, false, [], p.2)
  else (c, true, [command], [])

/- ==================== CALLBACK DISPATCH ==================== -/

/-- Behaviour of the registered observer for one delivery: no
callback registered, a normal return, or an exception raised by the
observer's body.  Process-control signals that do not derive from
Exception are outside the model. -/
inductive CbBehavior where
  | absent
  | returns
  | raises
deriving DecidableEq, Repr

/-- Outcome of one _fire_callback call (lines 398-405): whether the
callback body ran, whether it raised, and whether any exception
escaped the helper.  The helper's except clause catches every
exception raised by the callback and logs it, so escaped is false in
every branch and the helper always returns normally. -/
structure FireOutcome where
  invoked : Bool
  raised : Bool
  escaped : Bool
deriving DecidableEq, Repr

/-- Method _fire_callback (lines 398-405). -/
def fire_callback : CbBehavior → FireOutcome
  | .absent => ⟨false, false, false⟩
  | .returns => ⟨true, false, false⟩
  | .raises => ⟨true, true, false⟩

/-- Dispatch of one line's deliveries through _fire_callback, given
the observer behaviour for each event. -/
def dispatchAll (env : Event → CbBehavior) (evs : List Event) : List FireOutcome :=
  evs.map (fun e => fire_callback (env e))

/- ==================== LOCK-GRANULARITY MACHINE ====================
Interleaving model of the status record shared between the reader
task and get_status callers.  The reader performs each line's field
assignments one at a time while holding the status lock for the whole
set (the with-block of _parse_status_json and of the ERROR: and
STATE: branches of _parse_line); get_status also takes the lock, so a
snapshot can only be taken at a point where the lock is free. -/

/-- One critical section's sequence of individual field assignments. -/
abbrev Batch := List (ArduinoStatus → ArduinoStatus)

/-- Applies the assignments of one critical section in order. -/
def applyBatch (s : ArduinoStatus) (b : Batch) : ArduinoStatus :=
  b.foldl (fun a f => f a) s

/-- Applies a sequence of critical sections. -/
def applyBatches (s : ArduinoStatus) (bs : List Batch) : ArduinoStatus :=
  bs.foldl applyBatch s

/-- The individual assignment statements the with-block of
_parse_status_json executes for a decoded dict, in source order,
truncated at the first failing int() conversion: when the conversion
raises, the with-statement releases the lock and the assignments
after the failing one never run. -/
def jsonWrites (kvs : List (String × JsonValue)) (now : Nat) : Batch :=
  (fun s => { s with state := stateFromJson (dictGet kvs "state" (.str "IDLE")) }) ::
  match pyInt (dictGet kvs "currentRPM" (.int 0)) with
  | none => []
  | some cur =>
    (fun s => { s with current_rpm := cur }) ::
    match pyInt (dictGet kvs "targetRPM" (.int 0)) with
    | none => []
    | some tgt =>
      (fun s => { s with target_rpm := tgt }) ::
      match pyInt (dictGet kvs "pwm" (.int 0)) with
      | none => []
      | some pw =>
        (fun s => { s with pwm := pw }) ::
        (fun s => { s with lid_closed := pyBool (dictGet kvs "lidClosed" (.bool false)) }) ::
        (fun s => { s with level := pyBool (dictGet kvs "level" (.bool false)) }) ::
        (fun s => { s with running := pyBool (dictGet kvs "running" (.bool false)) }) ::
        match pyInt (dictGet kvs "remainingMs" (.int 0)) with
        | none => []
        | some rem =>
          (fun s => { s with remaining_ms := rem }) ::
          (fun s => { s with last_updated := now }) :: []

/-- The status-lock critical section one received line gives rise to,
as its list of field assignments (empty for lines that do not mutate
the record). -/
def lineWrites (line : String) (now : Nat) : Batch :=
  if strStartsWith line "\x7b" then
    match json_loads line with
    | some (.obj kvs) => jsonWrites kvs now
    | _ => []
  else if strStartsWith line "ERROR:" then
    (fun s => { s with state := .ERROR }) ::
    (fun s => { s with error_reason := strDrop line 6 }) :: []
  else if strStartsWith line "STATE:" then
    match SystemState.fromString (strDrop line 6) with
    | some st => [fun s => { s with state := st }]
    | none => []
  else []

/-- Scheduler mode of the reader's write stream: idle (the status
lock is free) with the remaining critical sections pending, or busy
(the lock is held) inside one critical section with that section's
remaining assignments. -/
inductive WriterMode where
  | idle (pending : List Batch)
  | busy (current : Batch) (pending : List Batch)

/-- A configuration of the shared record together with the reader's
position in its write stream. -/
structure Machine where
  status : ArduinoStatus
  mode : WriterMode

/-- Small-step interleaving semantics: the reader acquires the lock
on entering a critical section, performs one assignment per step, and
releases the lock when leaving the section. -/
inductive MStep : Machine → Machine → Prop where
  | enter (s : ArduinoStatus) (b : Batch) (rest : List Batch) :
      MStep ⟨s, .idle (b :: rest)⟩ ⟨s, .busy b rest⟩
  | write (s : ArduinoStatus) (w : ArduinoStatus → ArduinoStatus)
      (ws : Batch) (rest : List Batch) :
      MStep ⟨s, .busy (w :: ws) rest⟩ ⟨w s, .busy ws rest⟩
  | leave (s : ArduinoStatus) (rest : List Batch) :
      MStep ⟨s, .busy [] rest⟩ ⟨s, .idle rest⟩

/-- Reachability in the interleaving semantics. -/
def MReach (m m' : Machine) : Prop :=
  Relation.ReflTransGen MStep m m'

/-- Invariant tying every reachable configuration to the prefix of
critical sections already executed. -/
def MInv (s0 : ArduinoStatus) (batches : List Batch) : Machine → Prop
  | ⟨st, .idle pending⟩ =>
    ∃ done, batches = done ++ pending ∧ st = applyBatches s0 done
  | ⟨st, .busy cur pending⟩ =>
    ∃ done ws₁, batches = done ++ ((ws₁ ++ cur) :: pending) ∧
      st = applyBatch (applyBatches s0 done) ws₁

theorem MInv_step {s0 : ArduinoStatus} {batches : List Batch} {m m' : Machine}
    (hstep : MStep m m') (hinv : MInv s0 batches m) : MInv s0 batches m' := by
  cases hstep with
  | enter s b rest =>
    obtain ⟨done, hb, hs⟩ := hinv
    exact ⟨done, [], by simpa using hb, by simpa [applyBatch] using hs⟩
  | write s w ws rest =>
    obtain ⟨done, ws₁, hb, hs⟩ := hinv
    refine ⟨done, ws₁ ++ [w], ?_, ?_⟩
    · rw [hb]; simp
    · rw [hs]; simp [applyBatch, List.foldl_append]
  | leave s rest =>
    obtain ⟨done, ws₁, hb, hs⟩ := hinv
    refine ⟨done ++ [ws₁], ?_, ?_⟩
    · rw [hb]; simp
    · rw [hs]; simp [applyBatches, List.foldl_append]

theorem MInv_reach {s0 : ArduinoStatus} {batches : List Batch} {m m' : Machine}
    (h : MReach m m') (hinv : MInv s0 batches m) : MInv s0 batches m' := by
  induction h with
  | refl => exact hinv
  | tail _ hstep ih => exact MInv_step hstep ih

/- ==================== CONNECTING LEMMAS ==================== -/

theorem check_state_change_status (c : ControllerState) :
    (check_state_change c).1.status = c.status := by
  unfold check_state_change
  by_cases h : c.status.state ≠ c.previous_state <;> simp [h]

theorem applyBatch_jsonWrites (s : ArduinoStatus) (kvs : List (String × JsonValue))
    (now : Nat) :
    applyBatch s (jsonWrites kvs now) = (applyStatusJson s kvs now).status := by
  unfold applyBatch jsonWrites applyStatusJson
  cases pyInt (dictGet kvs "currentRPM" (.int 0)) <;>
    cases pyInt (dictGet kvs "targetRPM" (.int 0)) <;>
    cases pyInt (dictGet kvs "pwm" (.int 0)) <;>
    cases pyInt (dictGet kvs "remainingMs" (.int 0)) <;>
    rfl

/-- The status component of processing one line equals the net effect
of that line's critical section. -/
theorem parse_line_status (c : ControllerState) (line : String) (now : Nat) :
    (parse_line c line now).1.status = applyBatch c.status (lineWrites line now) := by
  unfold parse_line lineWrites
  split
  · unfold parse_status_json
    cases hj : json_loads line with
    | none => rfl
    | some v =>
      cases v <;> try rfl
      case obj kvs =>
        simp only
        rw [← applyBatch_jsonWrites]
        split
        · exact check_state_change_status _
        · rfl
  · split
    · simp only [check_state_change_status]
      rfl
    · split
      · split
        · simp only [check_state_change_status]
          rfl
        · rfl
      · split
        · rfl
        · split
          · rfl
          · split
            · rfl
            · split
              · rfl
              · split
                · rfl
                · split <;> rfl

/-- Sequential net status effect of a list of lines. -/
def runStatus (s : ArduinoStatus) : List (String × Nat) → ArduinoStatus
  | [] => s
  | (l, t) :: rest => runStatus (applyBatch s (lineWrites l t)) rest

theorem processLines_status (lines : List (String × Nat)) (c : ControllerState) :
    (processLines c lines).1.status = runStatus c.status lines := by
  induction lines generalizing c with
  | nil => rfl
  | cons p rest ih =>
    obtain ⟨l, t⟩ := p
    simp only [processLines, runStatus]
    rw [ih, parse_line_status]

theorem applyBatches_map (lines : List (String × Nat)) (s : ArduinoStatus) :
    applyBatches s (lines.map (fun p => lineWrites p.1 p.2)) = runStatus s lines := by
  induction lines generalizing s with
  | nil => rfl
  | cons p rest ih =>
    obtain ⟨l, t⟩ := p
    simp only [List.map, applyBatches, List.foldl_cons, runStatus]
    exact ih _

/- ==================== CONVERSION SUCCESS ==================== -/

/-- Whether all four int() conversions of _parse_status_json succeed
for a decoded dict (they depend only on the dict, not on the prior
record). -/
def jsonConvOk (kvs : List (String × JsonValue)) : Bool :=
  (pyInt (dictGet kvs "currentRPM" (.int 0))).isSome &&
  (pyInt (dictGet kvs "targetRPM" (.int 0))).isSome &&
  (pyInt (dictGet kvs "pwm" (.int 0))).isSome &&
  (pyInt (dictGet kvs "remainingMs" (.int 0))).isSome

/-- Whether processing a line cannot abort in the middle of its
status mutation: false for a decodable JSON status line one of whose
integer conversions fails, and for the impossible case of a brace
line decoding to a non-dict (there data.get would raise as well);
true for every other line, whose processing is total. -/
def lineConvOk (line : String) : Bool :=
  if strStartsWith line "\x7b" then
    match json_loads line with
    | some (.obj kvs) => jsonConvOk kvs
    | some _ => false
    | none => true
  else true

theorem applyStatusJson_ok_of_convOk (s : ArduinoStatus)
    (kvs : List (String × JsonValue)) (now : Nat) (h : jsonConvOk kvs = true) :
    (applyStatusJson s kvs now).ok = true := by
  unfold jsonConvOk at h
  unfold applyStatusJson
  cases h1 : pyInt (dictGet kvs "currentRPM" (.int 0)) <;>
    cases h2 : pyInt (dictGet kvs "targetRPM" (.int 0)) <;>
    cases h3 : pyInt (dictGet kvs "pwm" (.int 0)) <;>
    cases h4 : pyInt (dictGet kvs "remainingMs" (.int 0)) <;>
    simp_all

/-- A line whose conversions succeed never lets an exception escape
into the reader loop: a decode failure is caught inside
_parse_status_json and every other branch of _parse_line is total. -/
theorem parse_line_no_exc (c : ControllerState) (line : String) (now : Nat)
    (h : lineConvOk line = true) :
    (parse_line c line now).2.2 = false := by
  unfold lineConvOk at h
  unfold parse_line
  split
  · rename_i hpre
    rw [if_pos hpre] at h
    unfold parse_status_json
    cases hj : json_loads line with
    | none => rfl
    | some v =>
      rw [hj] at h
      cases v <;> simp_all
      case obj kvs =>
        rw [applyStatusJson_ok_of_convOk c.status kvs now h]
        simp
  · split
    · rfl
    · split
      · split <;> rfl
      · split
        · rfl
        · split
          · rfl
          · split
            · rfl
            · split
              · rfl
              · split
                · rfl
                · split <;> rfl

/- ==================== STATE-CHANGE TRACKING ==================== -/

/-- The state value a line writes into the record, none when the line
performs no state mutation. -/
def stateEffect (line : String) : Option SystemState :=
  if strStartsWith line "\x7b" then
    match json_loads line with
    | some (.obj kvs) => some (stateFromJson (dictGet kvs "state" (.str "IDLE")))
    | _ => none
  else if strStartsWith line "ERROR:" then some .ERROR
  else if strStartsWith line "STATE:" then SystemState.fromString (strDrop line 6)
  else none

/-- The transitions a sequence of state writes produces from a given
previously observed value: one (old, new) pair for every write that
differs from the value observed just before it. -/
def expectedChanges (p : SystemState) : List (Option SystemState) → List (SystemState × SystemState)
  | [] => []
  | none :: rest => expectedChanges p rest
  | some s :: rest =>
    if s = p then expectedChanges p rest else (p, s) :: expectedChanges s rest

/-- Per-line characterization of the state-changed deliveries and of
the evolution of the _previous_state tracker, for lines whose
conversions succeed. -/
theorem parse_line_stateChanges (c : ControllerState) (line : String) (now : Nat)
    (h : lineConvOk line = true) :
    ((parse_line c line now).2.1.filterMap stateChangedOf =
      match stateEffect line with
      | none => []
      | some s => if s = c.previous_state then [] else [(c.previous_state, s)]) ∧
    (parse_line c line now).1.previous_state = (stateEffect line).getD c.previous_state := by
  unfold lineConvOk at h
  unfold parse_line stateEffect
  split
  · rename_i hpre
    rw [if_pos hpre] at h
    unfold parse_status_json
    cases hj : json_loads line with
    | none => simp
    | some v =>
      rw [hj] at h
      cases v <;> simp_all
      case obj kvs =>
        have hok := applyStatusJson_ok_of_convOk c.status kvs now h
        rw [hok]
        simp only [if_true]
        have hst : (applyStatusJson c.status kvs now).status.state =
            stateFromJson (dictGet kvs "state" (.str "IDLE")) := by
          unfold applyStatusJson
          cases pyInt (dictGet kvs "currentRPM" (.int 0)) <;>
            cases pyInt (dictGet kvs "targetRPM" (.int 0)) <;>
            cases pyInt (dictGet kvs "pwm" (.int 0)) <;>
            cases pyInt (dictGet kvs "remainingMs" (.int 0)) <;>
            simp_all
        unfold check_state_change
        by_cases hc : stateFromJson (dictGet kvs "state" (.str "IDLE")) = c.previous_state <;>
          simp [stateChangedOf, hst, hc]
  · split
    · unfold check_state_change
      by_cases hc : SystemState.ERROR = c.previous_state <;>
        simp [stateChangedOf, hc]
    · split
      · split
        · rename_i st hstf
          unfold check_state_change
          by_cases hc : st = c.previous_state <;> simp [stateChangedOf, hstf, hc]
        · rename_i hstf
          simp [hstf]
      · split
        · simp [stateChangedOf]
        · split
          · simp
          · split
            · simp
            · split
              · simp
              · split
                · simp
                · split <;> simp

/-- Over a whole sequence of lines whose conversions succeed, the
state-changed deliveries are exactly the expected transition list:
one (old, new) pair per state write that differs from the value
observed just before it, in line order. -/
theorem processLines_stateChanges (lines : List (String × Nat)) (c : ControllerState)
    (h : ∀ p ∈ lines, lineConvOk p.1 = true) :
    (processLines c lines).2.filterMap stateChangedOf =
      expectedChanges c.previous_state (lines.map (fun p => stateEffect p.1)) := by
  induction lines generalizing c with
  | nil => rfl
  | cons p rest ih =>
    obtain ⟨l, t⟩ := p
    have hl : lineConvOk l = true := h (l, t) (List.mem_cons_self _ _)
    have hrest : ∀ q ∈ rest, lineConvOk q.1 = true :=
      fun q hq => h q (List.mem_cons_of_mem _ hq)
    obtain ⟨hev, hprev⟩ := parse_line_stateChanges c l t hl
    simp only [processLines, List.map, List.filterMap_append, expectedChanges]
    rw [hev, ih _ hrest, hprev]
    cases hse : stateEffect l with
    | none => simp [expectedChanges]
    | some s =>
      by_cases hc : s = c.previous_state <;> simp [expectedChanges, hc]

/-- The deliveries of one _check_state_change call: nothing, or a
single state-changed event. -/
theorem check_state_change_events (c : ControllerState) :
    (check_state_change c).2 = [] ∨
    ∃ o n, (check_state_change c).2 = [Event.stateChanged o n] := by
  unfold check_state_change
  by_cases h : c.status.state ≠ c.previous_state
  · exact Or.inr ⟨c.previous_state, c.status.state, by simp [h]⟩
  · exact Or.inl (by simp [h])

/-- A line matched by the ERROR: rule is not matched by the earlier
JSON rule. -/
theorem brace_prefix_false_of_error (line : String)
    (h : strStartsWith line "ERROR:" = true) :
    strStartsWith line "\x7b" = false := by
  unfold strStartsWith at h ⊢
  cases hd : line.data with
  | nil => rw [hd] at h; exact absurd h (by decide)
  | cons c cs =>
    rw [hd] at h
    rw [show ("ERROR:".data) = 'E' :: "RROR:".data from rfl] at h
    rw [show ("\x7b".data) = ['\x7b'] from rfl]
    simp [List.isPrefixOf] at h ⊢
    intro hc
    rw [← hc] at h
    exact absurd h.1 (by decide)

/-- Within one line's delivery list, every state-changed event comes
after all other deliveries of that line: the list splits into a
prefix without state-changed events followed by at most one
state-changed event. -/
theorem parse_line_events_split (c : ControllerState) (l : String) (t : Nat) :
    ∃ pre q, (parse_line c l t).2.1 = pre ++ q ∧
      pre.filterMap stateChangedOf = [] ∧
      (q = [] ∨ ∃ o n, q = [Event.stateChanged o n]) := by
  unfold parse_line
  split
  · unfold parse_status_json
    cases hj : json_loads l with
    | none => exact ⟨[], [], rfl, rfl, Or.inl rfl⟩
    | some v =>
      cases v <;> try exact ⟨[], [], rfl, rfl, Or.inl rfl⟩
      case obj kvs =>
        dsimp only
        by_cases hok : (applyStatusJson c.status kvs t).ok = true
        · rw [if_pos hok]
          set c1 : ControllerState :=
            { c with status := (applyStatusJson c.status kvs t).status } with hc1
          rcases check_state_change_events c1 with hch | ⟨o, n, hch⟩
          · exact ⟨[Event.statusUpdated (get_status c1)], [], by simp [hch], rfl, Or.inl rfl⟩
          · exact ⟨[Event.statusUpdated (get_status c1)], [Event.stateChanged o n],
              by simp [hch], rfl, Or.inr ⟨o, n, rfl⟩⟩
        · rw [if_neg hok]
          exact ⟨[], [], rfl, rfl, Or.inl rfl⟩
  · split
    · set c1 : ControllerState :=
        { c with status := { c.status with state := .ERROR, error_reason := strDrop l 6 } } with hc1
      rcases check_state_change_events c1 with hch | ⟨o, n, hch⟩
      · exact ⟨[Event.error (strDrop l 6)], [], by simp [hch], rfl, Or.inl rfl⟩
      · exact ⟨[Event.error (strDrop l 6)], [Event.stateChanged o n],
          by simp [hch], rfl, Or.inr ⟨o, n, rfl⟩⟩
    · split
      · split
        · rename_i st hstf
          set c1 : ControllerState :=
            { c with status := { c.status with state := st } } with hc1
          rcases check_state_change_events c1 with hch | ⟨o, n, hch⟩
          · exact ⟨[], [], by simp [hch], rfl, Or.inl rfl⟩
          · exact ⟨[], [Event.stateChanged o n], by simp [hch], rfl, Or.inr ⟨o, n, rfl⟩⟩
        · exact ⟨[], [], rfl, rfl, Or.inl rfl⟩
      · split
        · exact ⟨[Event.complete], [], rfl, rfl, Or.inl rfl⟩
        · split
          · exact ⟨[], [], rfl, rfl, Or.inl rfl⟩
          · split
            · exact ⟨[], [], rfl, rfl, Or.inl rfl⟩
            · split
              · exact ⟨[], [], rfl, rfl, Or.inl rfl⟩
              · split
                · exact ⟨[], [], rfl, rfl, Or.inl rfl⟩
                · split <;> exact ⟨[], [], rfl, rfl, Or.inl rfl⟩

/- ==================== CONCRETE SCENARIO DATA ==================== -/

/-- A freshly connected controller: default status record, previous
state Disconnected, serial object present and open, stop event
clear. -/
def cConn : ControllerState :=
  { serialPresent := true, serialOpen := true }

/-- A controller mid-run: the record carries live telemetry received
from the device. -/
def c850 : ControllerState :=
  { status := { state := .RUNNING
                current_rpm := 850
                target_rpm := 1000
                lid_closed := true
                level := true
                running := true
                remaining_ms := 12000
                last_updated := 7 }
    previous_state := .RUNNING
    serialPresent := true
    serialOpen := true }

/-- The concrete status packet of the specification's scenario. -/
def lineC6 : String :=
  "\x7b\"state\":\"RUNNING\",\"currentRPM\":850,\"targetRPM\":1000,\"lidClosed\":true,\"level\":true,\"running\":true,\"remainingMs\":12000\x7d"

/-- The dict json.loads produces for lineC6. -/
def kvsC6 : List (String × JsonValue) :=
  [("state", .str "RUNNING"), ("currentRPM", .int 850), ("targetRPM", .int 1000),
   ("lidClosed", .bool true), ("level", .bool true), ("running", .bool true),
   ("remainingMs", .int 12000)]

theorem json_loads_lineC6 : json_loads lineC6 = some (JsonValue.obj kvsC6) := rfl

theorem applyStatusJson_kvsC6 (s : ArduinoStatus) (now : Nat) :
    applyStatusJson s kvsC6 now =
      { status := { s with state := .RUNNING
                           current_rpm := 850
                           target_rpm := 1000
                           pwm := 0
                           lid_closed := true
                           level := true
                           running := true
                           remaining_ms := 12000
                           last_updated := now }
        writes := 9
        ok := true } := rfl

/-- A decodable status packet whose currentRPM value is a non-numeric
string: int() raises there, after the state field was already
assigned. -/
def badLine2 : String := "\x7b\"state\":\"IDLE\",\"currentRPM\":\"x\"\x7d"

/-- The dict json.loads produces for badLine2. -/
def kvsBad2 : List (String × JsonValue) :=
  [("state", .str "IDLE"), ("currentRPM", .str "x")]

/-- A decodable status packet carrying a state different from the
previously observed one together with a non-numeric currentRPM. -/
def badLine4 : String := "\x7b\"state\":\"RUNNING\",\"currentRPM\":\"x\"\x7d"

/-- Field-by-field equality of two status records with the
last_updated timestamp ignored. -/
def eqIgnoringLastUpdated (a b : ArduinoStatus) : Prop :=
  a.state = b.state ∧ a.current_rpm = b.current_rpm ∧ a.target_rpm = b.target_rpm ∧
  a.pwm = b.pwm ∧ a.lid_closed = b.lid_closed ∧ a.level = b.level ∧
  a.running = b.running ∧ a.remaining_ms = b.remaining_ms ∧
  a.error_reason = b.error_reason

/- ==================== CLAIM THEOREMS ==================== -/

/-- Claim C1, counterexample: disconnect() does not reset the status
record to its initial value.  From a connected session whose record
carries live telemetry (current_rpm 850 and more), a get() after
disconnect() still shows that telemetry, so it differs from a freshly
constructed record even ignoring lastUpdated; only the state field is
reset to Disconnected. -/
theorem C1_counterexample :
    is_connected c850 = true ∧
    ¬ eqIgnoringLastUpdated (get_status (disconnect c850).1) ({} : ArduinoStatus) := by
  constructor
  · rfl
  · intro h
    exact absurd h.2.1 (by decide)

/-- Claim C1, amended: for every connected session, disconnect() sets
the state field to Disconnected, closes the link and sets the stop
event, but leaves every other field of the status record unchanged. -/
theorem C1_amended_disconnect (c : ControllerState) (h : is_connected c = true) :
    (disconnect c).1.status = { c.status with state := .DISCONNECTED } ∧
    (disconnect c).1.serialOpen = false ∧
    (disconnect c).1.stopEvent = true := by
  unfold is_connected at h
  rw [Bool.and_eq_true] at h
  unfold disconnect
  simp [h.1, h.2]

/-- Witness for C1_amended_disconnect at a concrete connected
controller. -/
theorem C1_amended_witness :
    is_connected cConn = true ∧
    ((disconnect cConn).1.status = { cConn.status with state := .DISCONNECTED } ∧
     (disconnect cConn).1.serialOpen = false ∧
     (disconnect cConn).1.stopEvent = true) :=
  ⟨rfl, C1_amended_disconnect cConn rfl⟩

/-- Claim C3, counterexample: after a reader I/O failure mid-session,
exactly one error event fires, the state becomes Disconnected, the
link is closed and the reader exits — but the watchdog task does not
terminate, because _handle_disconnect never sets the stop event. -/
theorem C3_counterexample :
    is_connected cConn = true ∧ cConn.stopEvent = false ∧
    (reader_on_io_error cConn).2.1 = [Event.error "SERIAL_DISCONNECTED"] ∧
    (reader_on_io_error cConn).1.status.state = .DISCONNECTED ∧
    (reader_on_io_error cConn).1.serialOpen = false ∧
    (reader_on_io_error cConn).2.2 = true ∧
    watchdog_exits (reader_on_io_error cConn).1 = false := by
  decide

/-- Claim C3, amended: a reader I/O failure mid-session emits exactly
one error event, marks the record Disconnected, closes the link, and
terminates the reader task; the watchdog task keeps looping (its stop
event is still clear) but performs no further pings because the link
is no longer open. -/
theorem C3_amended_io_error (c : ControllerState) (h1 : is_connected c = true)
    (h2 : c.stopEvent = false) :
    (reader_on_io_error c).2.1 = [Event.error "SERIAL_DISCONNECTED"] ∧
    (reader_on_io_error c).1.status.state = .DISCONNECTED ∧
    (reader_on_io_error c).1.serialOpen = false ∧
    (reader_on_io_error c).2.2 = true ∧
    watchdog_exits (reader_on_io_error c).1 = false ∧
    watchdog_iteration (reader_on_io_error c).1 = false := by
  unfold is_connected at h1
  rw [Bool.and_eq_true] at h1
  unfold reader_on_io_error handle_disconnect watchdog_exits watchdog_iteration is_connected
  simp [h1.1, h1.2, h2]

/-- Witness for C3_amended_io_error at a concrete connected
controller. -/
theorem C3_amended_witness :
    is_connected cConn = true ∧ cConn.stopEvent = false ∧
    ((reader_on_io_error cConn).2.1 = [Event.error "SERIAL_DISCONNECTED"] ∧
     (reader_on_io_error cConn).1.status.state = .DISCONNECTED ∧
     (reader_on_io_error cConn).1.serialOpen = false ∧
     (reader_on_io_error cConn).2.2 = true ∧
     watchdog_exits (reader_on_io_error cConn).1 = false ∧
     watchdog_iteration (reader_on_io_error cConn).1 = false) :=
  ⟨rfl, rfl, C3_amended_io_error cConn rfl rfl⟩

/-- Claim C5: processing a line that starts with a brace but is not
decodable JSON leaves the controller unchanged (status record, serial
flags and tracker included), attempts no deliveries, and lets no
exception escape; in particular the link is not dropped. -/
theorem C5_malformed_json (c : ControllerState) (line : String) (now : Nat)
    (h1 : strStartsWith line "\x7b" = true) (h2 : json_loads line = none) :
    parse_line c line now = (c, [], false) := by
  unfold parse_line
  rw [if_pos h1]
  unfold parse_status_json
  rw [h2]

/-- Witness for C5_malformed_json at concrete malformed lines: a
truncated packet, a leading-zero numeral (the number token stops
after the 0 and the stray digit breaks the object, as in Python), and
a raw control character inside a string (rejected by the strict
decoder). -/
theorem C5_witness :
    (strStartsWith "\x7bnot json" "\x7b" = true ∧
     json_loads "\x7bnot json" = none ∧
     parse_line cConn "\x7bnot json" 5 = (cConn, [], false)) ∧
    (json_loads "\x7b\"currentRPM\":01\x7d" = none ∧
     parse_line c850 "\x7b\"currentRPM\":01\x7d" 5 = (c850, [], false)) ∧
    (json_loads "\x7b\"state\":\"A\x09B\"\x7d" = none ∧
     parse_line c850 "\x7b\"state\":\"A\x09B\"\x7d" 5 = (c850, [], false)) :=
  ⟨⟨rfl, rfl, C5_malformed_json cConn "\x7bnot json" 5 rfl rfl⟩,
   ⟨rfl, C5_malformed_json c850 "\x7b\"currentRPM\":01\x7d" 5 rfl rfl⟩,
   ⟨rfl, C5_malformed_json c850 "\x7b\"state\":\"A\x09B\"\x7d" 5 rfl rfl⟩⟩

/-- Claim C7: sending any command while not connected returns
failure, performs no write to the link, fires no events, and leaves
the controller unchanged. -/
theorem C7_send_not_connected (c : ControllerState) (command : String) (wf : Bool)
    (h : is_connected c = false) :
    send c command wf = (c, false, [], []) := by
  unfold send
  simp [h]

/-- Witness for C7_send_not_connected at a freshly constructed
controller with no link. -/
theorem C7_witness :
    is_connected ({} : ControllerState) = false ∧
    send ({} : ControllerState) "STOP\n" false = ({}, false, [], []) :=
  ⟨rfl, C7_send_not_connected {} "STOP\n" false rfl⟩

/-- Claim C8: disconnect() is idempotent — the second call returns
the exact same terminal controller state, performs zero close
operations on the already-closed link, and the terminal state is
Disconnected. -/
theorem C8_disconnect_idempotent (c : ControllerState) :
    disconnect (disconnect c).1 = ((disconnect c).1, 0) ∧
    (disconnect c).1.status.state = .DISCONNECTED := by
  unfold disconnect
  cases hp : c.serialPresent <;> cases ho : c.serialOpen <;> simp

/-- Claim C9: the dispatch helper never lets an exception escape —
for every observer behaviour each _fire_callback call returns
normally, and a whole line's deliveries are all attempted regardless
of observers raising. -/
theorem C9_callback_isolation (env : Event → CbBehavior) (evs : List Event) :
    (∀ b, (fire_callback b).escaped = false) ∧
    (dispatchAll env evs).length = evs.length ∧
    (∀ o ∈ dispatchAll env evs, o.escaped = false) := by
  refine ⟨fun b => by cases b <;> rfl, by simp [dispatchAll], fun o ho => ?_⟩
  rw [dispatchAll] at ho
  simp only [List.mem_map] at ho
  obtain ⟨e, he, rfl⟩ := ho
  cases env e <;> rfl

/-- Witness for C9_callback_isolation with a raising observer. -/
theorem C9_witness :
    (fire_callback CbBehavior.raises).escaped = false ∧
    (dispatchAll (fun _ => CbBehavior.raises) [Event.complete]).length = 1 :=
  ⟨(C9_callback_isolation (fun _ => CbBehavior.raises) [Event.complete]).1 CbBehavior.raises,
   (C9_callback_isolation (fun _ => CbBehavior.raises) [Event.complete]).2.1⟩

/-- Claim C2, counterexample: a decodable status packet whose
currentRPM value is a non-numeric string performs only the state
assignment before int() raises: the record is left with the state
field freshly written (Idle) while current_rpm keeps its prior value
(850) — neither none nor all of the line's field writes, exactly the
partial outcome the claim rules out. -/
theorem C2_counterexample :
    json_loads badLine2 = some (JsonValue.obj kvsBad2) ∧
    (applyStatusJson c850.status kvsBad2 3).writes = 1 ∧
    ¬((applyStatusJson c850.status kvsBad2 3).writes = 0 ∨
      (applyStatusJson c850.status kvsBad2 3).writes = 9) ∧
    (parse_line c850 badLine2 3).1.status.state = .IDLE ∧
    (parse_line c850 badLine2 3).1.status.current_rpm = 850 ∧
    (parse_line c850 badLine2 3).2.2 = true :=
  ⟨rfl, rfl, by decide, rfl, rfl, rfl⟩

/-- Claim C2, amended: provided every processed line's conversions
succeed (no int() failure inside the critical section), every
snapshot taken at a point where the status lock is free — the only
points where get_status can run — equals the record after some whole
prefix of the processed lines: a reader observes all of a line's
field writes or none of them, and each such line indeed completes its
full write set without an escaping exception. -/
theorem C2_amended_atomic (s0 : ArduinoStatus) (lines : List (String × Nat))
    (hconv : ∀ p ∈ lines, lineConvOk p.1 = true)
    (m : Machine) (pending : List Batch)
    (hreach : MReach ⟨s0, .idle (lines.map (fun p => lineWrites p.1 p.2))⟩ m)
    (hmode : m.mode = .idle pending) :
    (∃ k ≤ lines.length, m.status = runStatus s0 (lines.take k)) ∧
    (∀ p ∈ lines, ∀ c : ControllerState, (parse_line c p.1 p.2).2.2 = false) := by
  constructor
  · have hinv := MInv_reach hreach
      (show MInv s0 (lines.map (fun p => lineWrites p.1 p.2))
        ⟨s0, .idle (lines.map (fun p => lineWrites p.1 p.2))⟩ from ⟨[], rfl, rfl⟩)
    obtain ⟨st, mode⟩ := m
    simp only at hmode
    subst hmode
    obtain ⟨done, hb, hs⟩ := hinv
    refine ⟨done.length, ?_, ?_⟩
    · have hlen := congrArg List.length hb
      simp at hlen
      omega
    · have hdone : done = (lines.take done.length).map (fun p => lineWrites p.1 p.2) := by
        have h1 : done = (lines.map (fun p => lineWrites p.1 p.2)).take done.length := by
          rw [hb, List.take_left]
        conv_lhs => rw [h1]
        exact (List.map_take _ _ _).symm
      rw [hdone, applyBatches_map] at hs
      exact hs
  · exact fun p hp c => parse_line_no_exc c p.1 p.2 (hconv p hp)

/-- Witness for C2_amended_atomic at a concrete one-line stream. -/
theorem C2_amended_witness :
    ∃ k ≤ ([(("ERROR:X" : String), (0 : Nat))] : List (String × Nat)).length,
      (Machine.mk {} (.idle ([(("ERROR:X" : String), (0 : Nat))].map
          (fun p => lineWrites p.1 p.2)))).status =
        runStatus {} ([(("ERROR:X" : String), (0 : Nat))].take k) :=
  (C2_amended_atomic {} [("ERROR:X", 0)] (by decide)
    _ _ Relation.ReflTransGen.refl rfl).1

/-- Claim C4, counterexample: a decodable status packet that decodes
a state different from the previously observed one but whose
currentRPM value makes int() raise mutates the state field yet emits
no state-changed event, because the exception skips
_check_state_change. -/
theorem C4_counterexample :
    strStartsWith badLine4 "\x7b" = true ∧
    cConn.previous_state = .DISCONNECTED ∧
    (parse_line cConn badLine4 3).1.status.state = .RUNNING ∧
    SystemState.RUNNING ≠ SystemState.DISCONNECTED ∧
    (parse_line cConn badLine4 3).2.1 = [] :=
  ⟨rfl, rfl, rfl, by decide, rfl⟩

/-- Claim C4, amended: restricted to processed lines whose
conversions succeed, the state-changed deliveries of any line
sequence are exactly one (old, new) event per state write that
differs from the previously observed value, in line order; and within
each single line's delivery list every state-changed event comes
last, after that line's other deliveries. -/
theorem C4_amended_state_events :
    (∀ (c : ControllerState) (lines : List (String × Nat)),
      (∀ p ∈ lines, lineConvOk p.1 = true) →
      (processLines c lines).2.filterMap stateChangedOf =
        expectedChanges c.previous_state (lines.map (fun p => stateEffect p.1))) ∧
    (∀ (c : ControllerState) (l : String) (t : Nat),
      ∃ pre q, (parse_line c l t).2.1 = pre ++ q ∧
        pre.filterMap stateChangedOf = [] ∧
        (q = [] ∨ ∃ o n, q = [Event.stateChanged o n])) :=
  ⟨fun c lines h => processLines_stateChanges lines c h, parse_line_events_split⟩

/-- Witness for C4_amended_state_events on a concrete line
sequence: two distinct transitions, the repeated state coalesced. -/
theorem C4_amended_witness :
    (processLines cConn
        [("STATE:RUNNING", 0), ("STATE:RUNNING", 1), ("STATE:IDLE", 2)]).2.filterMap
      stateChangedOf =
      [(SystemState.DISCONNECTED, SystemState.RUNNING),
       (SystemState.RUNNING, SystemState.IDLE)] := by
  have h := C4_amended_state_events.1 cConn
    [("STATE:RUNNING", 0), ("STATE:RUNNING", 1), ("STATE:IDLE", 2)] (by decide)
  rw [h]
  rfl

/-- Claim C10: within one processed line's deliveries, a JSON status
line fires the status-updated event strictly before any state-changed
event, and an ERROR: line fires the error event (carrying the reason
after the prefix) strictly before any state-changed event. -/
theorem C10_event_order (c : ControllerState) (line : String) (now : Nat) :
    (strStartsWith line "\x7b" = true →
      (parse_line c line now).2.1 = [] ∨
      (∃ st, (parse_line c line now).2.1 = [Event.statusUpdated st]) ∨
      (∃ st o n, (parse_line c line now).2.1 =
        [Event.statusUpdated st, Event.stateChanged o n])) ∧
    (strStartsWith line "ERROR:" = true →
      (parse_line c line now).2.1 = [Event.error (strDrop line 6)] ∨
      (∃ o n, (parse_line c line now).2.1 =
        [Event.error (strDrop line 6), Event.stateChanged o n])) := by
  constructor
  · intro h
    unfold parse_line
    rw [if_pos h]
    unfold parse_status_json
    cases hj : json_loads line with
    | none => exact Or.inl rfl
    | some v =>
      cases v <;> try exact Or.inl rfl
      case obj kvs =>
        dsimp only
        by_cases hok : (applyStatusJson c.status kvs now).ok = true
        · rw [if_pos hok]
          set c1 : ControllerState :=
            { c with status := (applyStatusJson c.status kvs now).status } with hc1
          rcases check_state_change_events c1 with hch | ⟨o, n, hch⟩
          · exact Or.inr (Or.inl ⟨get_status c1, by simp [hch]⟩)
          · exact Or.inr (Or.inr ⟨get_status c1, o, n, by simp [hch]⟩)
        · rw [if_neg hok]
          exact Or.inl rfl
  · intro h
    have hb := brace_prefix_false_of_error line h
    unfold parse_line
    rw [if_neg (by simp [hb])]
    rw [if_pos h]
    set c1 : ControllerState :=
      { c with status := { c.status with state := .ERROR, error_reason := strDrop line 6 } }
      with hc1
    rcases check_state_change_events c1 with hch | ⟨o, n, hch⟩
    · exact Or.inl (by simp [hch])
    · exact Or.inr ⟨o, n, by simp [hch]⟩

/-- Witness for C10_event_order at a concrete ERROR line. -/
theorem C10_witness :
    (parse_line cConn "ERROR:LID_OPEN" 0).2.1 = [Event.error "LID_OPEN"] ∨
    (∃ o n, (parse_line cConn "ERROR:LID_OPEN" 0).2.1 =
      [Event.error "LID_OPEN", Event.stateChanged o n]) := by
  have h := (C10_event_order cConn "ERROR:LID_OPEN" 0).2 rfl
  rw [show strDrop "ERROR:LID_OPEN" 6 = "LID_OPEN" from rfl] at h
  exact h

/-- Claim C6: for every status packet whose writes complete, absent
keys take their defaults (state defaults to Idle, also when the state
string is unrecognized; the integer keys default to 0; the boolean
keys default to false), and the specification's concrete packet
yields the stated snapshot with remaining_sec 12. -/
theorem C6_defaults_and_scenario :
    (∀ (s : ArduinoStatus) (kvs : List (String × JsonValue)) (now : Nat),
      (applyStatusJson s kvs now).ok = true →
      ((dictFind kvs "state" = none →
          (applyStatusJson s kvs now).status.state = .IDLE) ∧
       (∀ v, dictFind kvs "state" = some (.str v) → SystemState.fromString v = none →
          (applyStatusJson s kvs now).status.state = .IDLE) ∧
       (dictFind kvs "currentRPM" = none →
          (applyStatusJson s kvs now).status.current_rpm = 0) ∧
       (dictFind kvs "targetRPM" = none →
          (applyStatusJson s kvs now).status.target_rpm = 0) ∧
       (dictFind kvs "pwm" = none →
          (applyStatusJson s kvs now).status.pwm = 0) ∧
       (dictFind kvs "remainingMs" = none →
          (applyStatusJson s kvs now).status.remaining_ms = 0) ∧
       (dictFind kvs "lidClosed" = none →
          (applyStatusJson s kvs now).status.lid_closed = false) ∧
       (dictFind kvs "level" = none →
          (applyStatusJson s kvs now).status.level = false) ∧
       (dictFind kvs "running" = none →
          (applyStatusJson s kvs now).status.running = false))) ∧
    (∀ (c : ControllerState) (now : Nat),
      (get_status (parse_line c lineC6 now).1).state = .RUNNING ∧
      (get_status (parse_line c lineC6 now).1).current_rpm = 850 ∧
      (get_status (parse_line c lineC6 now).1).target_rpm = 1000 ∧
      (get_status (parse_line c lineC6 now).1).lid_closed = true ∧
      (get_status (parse_line c lineC6 now).1).level = true ∧
      (get_status (parse_line c lineC6 now).1).running = true ∧
      (get_status (parse_line c lineC6 now).1).remaining_ms = 12000 ∧
      (get_status (parse_line c lineC6 now).1).remaining_sec = 12) := by
  constructor
  · intro s kvs now hok
    unfold applyStatusJson at hok ⊢
    cases h1 : pyInt (dictGet kvs "currentRPM" (.int 0)) with
    | none => rw [h1] at hok; simp at hok
    | some cur =>
      rw [h1] at hok
      cases h2 : pyInt (dictGet kvs "targetRPM" (.int 0)) with
      | none => rw [h2] at hok; simp at hok
      | some tgt =>
        rw [h2] at hok
        cases h3 : pyInt (dictGet kvs "pwm" (.int 0)) with
        | none => rw [h3] at hok; simp at hok
        | some pw =>
          rw [h3] at hok
          cases h4 : pyInt (dictGet kvs "remainingMs" (.int 0)) with
          | none => rw [h4] at hok; simp at hok
          | some rem =>
            refine ⟨fun hf => ?_, fun v hf hfs => ?_, fun hf => ?_, fun hf => ?_,
              fun hf => ?_, fun hf => ?_, fun hf => ?_, fun hf => ?_, fun hf => ?_⟩ <;>
              simp_all [dictGet, stateFromJson, pyInt, pyBool, SystemState.fromString]
  · intro c now
    have hLW : lineWrites lineC6 now = jsonWrites kvsC6 now := by
      unfold lineWrites
      rw [if_pos (show strStartsWith lineC6 "\x7b" = true from rfl), json_loads_lineC6]
    have hst : (parse_line c lineC6 now).1.status =
        { c.status with state := .RUNNING
                        current_rpm := 850
                        target_rpm := 1000
                        pwm := 0
                        lid_closed := true
                        level := true
                        running := true
                        remaining_ms := 12000
                        last_updated := now } := by
      rw [parse_line_status, hLW, applyBatch_jsonWrites, applyStatusJson_kvsC6]
    refine ⟨?_, ?_, ?_, ?_, ?_, ?_, ?_, ?_⟩ <;>
      simp [get_status, hst, ArduinoStatus.remaining_sec]

/-- Witness for C6_defaults_and_scenario: the empty dict takes every
default, and the concrete scenario line yields the stated snapshot
from a concrete controller. -/
theorem C6_witness :
    (applyStatusJson ({} : ArduinoStatus) [] 0).ok = true ∧
    (applyStatusJson ({} : ArduinoStatus) [] 0).status.state = .IDLE ∧
    (applyStatusJson ({} : ArduinoStatus) [] 0).status.current_rpm = 0 ∧
    (get_status (parse_line cConn lineC6 7).1).current_rpm = 850 ∧
    (get_status (parse_line cConn lineC6 7).1).remaining_sec = 12 :=
  ⟨rfl,
   ((C6_defaults_and_scenario.1 {} [] 0 rfl).1 rfl),
   ((C6_defaults_and_scenario.1 {} [] 0 rfl).2.2.1 rfl),
   (C6_defaults_and_scenario.2 cConn 7).2.1,
   (C6_defaults_and_scenario.2 cConn 7).2.2.2.2.2.2.2⟩
